import Mathlib

/-!
Shallow embedding of `src/load_balancer.py` (Smart Task Manager — Dynamic
Load Balancer).  Python floats are modelled as rationals (`ℚ`); the two
stochastic inputs (the memory-usage sample drawn by `update_metrics` and
the success draw in `_execute_task`) and the external capacity source
(`psutil.cpu_freq().current or 100.0`) are passed in as explicit
parameters.  The asynchronous execution unit spawned per admitted task is
modelled by exposing its eventual body (`_execute_task`) as an explicit
`execute_task` step that may run at any later point.
-/

namespace LB

/-- The `TaskType` NamedTuple from the source. -/
structure TaskType where
  name : String
  cpu_intensity : ℚ
  memory_requirement : ℤ
  io_intensity : ℚ
deriving DecidableEq

/-- The `Task` NamedTuple from the source. -/
structure Task where
  id : String
  priority : ℤ
  execution_time : ℚ
  arrival_time : ℚ
  task_type : TaskType
  status : String := "pending"
deriving DecidableEq

/-- The `ProcessorMetrics` record from the source (all fields start at 0.0). -/
structure ProcessorMetrics where
  cpu_usage : ℚ
  memory_usage : ℚ
  io_usage : ℚ
  temperature : ℚ
  power_consumption : ℚ
deriving DecidableEq

/-- State of a `ProcessorQueue`.  Here `capacity` stands for the external capacity
source queried by `get_processor_capacity` (constant per queue here). -/
structure ProcessorQueue where
  processor_id : ℕ
  tasks : List Task
  load : ℚ
  total_tasks_processed : ℕ
  total_execution_time : ℚ
  specialization : List String
  metrics : ProcessorMetrics
  failed_tasks : ℕ
  successful_tasks : ℕ
  load_history : List ℚ
  capacity : ℚ
deriving DecidableEq

/-- Constructor `ProcessorQueue.__init__`. -/
def ProcessorQueue.init (processor_id : ℕ) (specialization : List String)
    (capacity : ℚ) : ProcessorQueue :=
  { processor_id := processor_id
    tasks := []
    load := 0
    total_tasks_processed := 0
    total_execution_time := 0
    specialization := specialization
    metrics := ⟨0, 0, 0, 0, 0⟩
    failed_tasks := 0
    successful_tasks := 0
    load_history := []
    capacity := capacity }

/-- Method `ProcessorQueue.update_metrics`; `mem` is the value drawn by
`random.uniform(20, 80)`. -/
def ProcessorQueue.update_metrics (p : ProcessorQueue) (mem : ℚ) : ProcessorQueue :=
  let cpu := min 100 ((p.tasks.length : ℚ) * 20)
  { p with metrics :=
      { cpu_usage := cpu
        memory_usage := mem
        io_usage := p.metrics.io_usage
        temperature := 40 + cpu / 2
        power_consumption := cpu * 2 } }

/-- Method `ProcessorQueue.update_load`: recompute `load` from the pending count
and capacity, append it to `load_history`, and drop the oldest entry when
the history exceeds 100 entries. -/
def ProcessorQueue.update_load (p : ProcessorQueue) : ProcessorQueue :=
  let newLoad := (p.tasks.length : ℚ) * 100 / p.capacity
  let hist := p.load_history ++ [newLoad]
  { p with load := newLoad
           load_history := if 100 < hist.length then hist.tail else hist }

/-- Method `ProcessorQueue.add_task` followed by the synchronous part of
`_simulate_task_execution` (the counter increments; the spawned thread is
modelled separately by `execute_task`). -/
def ProcessorQueue.add_task (p : ProcessorQueue) (task : Task) (mem : ℚ) : ProcessorQueue :=
  let p1 := { p with tasks := p.tasks ++ [task] }
  let p2 := p1.update_load
  let p3 := p2.update_metrics mem
  { p3 with total_tasks_processed := p3.total_tasks_processed + 1
            total_execution_time := p3.total_execution_time + task.execution_time }

/-- Method `ProcessorQueue.get_task`: pop the head of the pending queue (FIFO)
and recompute load if non-empty; return `none` otherwise. -/
def ProcessorQueue.get_task (p : ProcessorQueue) : ProcessorQueue × Option Task :=
  match p.tasks with
  | [] => (p, none)
  | task :: rest => (({ p with tasks := rest }).update_load, some task)

/-- Body of `ProcessorQueue._execute_task` after the timed wait: if the
task is still pending, remove it, count it as a success or failure
(`success` is the outcome of the `random.random() < success_chance` draw),
and recompute load and metrics; otherwise do nothing. -/
def ProcessorQueue.execute_task (p : ProcessorQueue) (task : Task) (success : Bool)
    (mem : ℚ) : ProcessorQueue :=
  if task ∈ p.tasks then
    let p1 := { p with tasks := p.tasks.erase task }
    let p2 := if success
      then { p1 with successful_tasks := p1.successful_tasks + 1 }
      else { p1 with failed_tasks := p1.failed_tasks + 1 }
    (p2.update_load).update_metrics mem
  else p

/-- Placeholder queue used for (never-taken) out-of-range list accesses. -/
def dummyQueue : ProcessorQueue := ProcessorQueue.init 0 [] 100

/-- The fixed task-type catalog built in `DynamicLoadBalancer.__init__`. -/
def default_task_types : List (String × TaskType) :=
  [("compute_intensive", ⟨"compute_intensive", 9/10, 200, 1/10⟩),
   ("memory_intensive", ⟨"memory_intensive", 3/10, 800, 2/10⟩),
   ("io_intensive", ⟨"io_intensive", 2/10, 100, 9/10⟩),
   ("balanced", ⟨"balanced", 5/10, 400, 5/10⟩)]

/-- The cyclic specialization assignment from `DynamicLoadBalancer.__init__`. -/
def default_specializations : List (List String) :=
  [["compute_intensive"], ["memory_intensive"], ["io_intensive"], []]

/-- State of the `DynamicLoadBalancer` (time-related fields dropped; `monitoring_interval`
and `start_time` only drive the real-time loop). -/
structure DynamicLoadBalancer where
  processor_queues : List ProcessorQueue
  load_threshold : ℚ
  tasks_submitted : ℕ
  task_types : List (String × TaskType)
deriving DecidableEq

/-- Constructor `DynamicLoadBalancer.__init__`; `caps` is the external capacity source
for each processor. -/
def DynamicLoadBalancer.init (num_processors : ℕ) (caps : ℕ → ℚ) : DynamicLoadBalancer :=
  { processor_queues := (List.range num_processors).map (fun i =>
      ProcessorQueue.init i
        (default_specializations.getD (i % default_specializations.length) []) (caps i))
    load_threshold := 70
    tasks_submitted := 0
    task_types := default_task_types }

/-- The weight computed for one candidate in `_find_optimal_processor`. -/
def DynamicLoadBalancer.weight (task : Task) (p : ProcessorQueue) : ℚ :=
  let w1 := p.load
  let w2 := if task.task_type.name ∈ p.specialization then w1 * (7/10) else w1
  let w3 := w2 * (1 + p.metrics.cpu_usage / 200)
  w3 * (1 + (p.metrics.temperature - 40) / 100)

/-- CPython `min(..., key=f)`: scan left to right, replace the current best
only on a strictly smaller key (so the first minimum wins ties). -/
def pyMin (f : α → ℚ) : α → List α → α
  | b, [] => b
  | b, y :: ys => pyMin f (if f y < f b then y else b) ys

/-- Method `DynamicLoadBalancer._find_optimal_processor` (`none` on an empty pool,
where Python's `min` would raise `ValueError`). -/
def DynamicLoadBalancer.find_optimal_processor (task : Task)
    (ps : List ProcessorQueue) : Option ProcessorQueue :=
  match ps with
  | [] => none
  | p :: rest => some (pyMin (DynamicLoadBalancer.weight task) p rest)

/-- Index form of `_find_optimal_processor`, used to thread state updates. -/
def DynamicLoadBalancer.find_optimal_idx (task : Task)
    (ps : List ProcessorQueue) : Option ℕ :=
  match ps.enum with
  | [] => none
  | ip :: rest => some (pyMin (fun q => DynamicLoadBalancer.weight task q.2) ip rest).1

/-- Method `DynamicLoadBalancer.submit_task`.  Here `now` is `time.time() - start_time`
and `mem` the memory sample for the triggered `update_metrics`.  The
`tasks_submitted` increment happens before the catalog lookup, exactly as
in the source; an unknown type name then raises `KeyError` out of the dict
indexing, and an empty pool raises `ValueError` inside `min`. -/
def DynamicLoadBalancer.submit_task (b : DynamicLoadBalancer) (task_id : String)
    (priority : ℤ) (execution_time : ℚ) (task_type : String) (now : ℚ)
    (mem : ℚ) : DynamicLoadBalancer × Except String Bool :=
  let b1 := { b with tasks_submitted := b.tasks_submitted + 1 }
  match b1.task_types.lookup task_type with
  | none => (b1, Except.error "KeyError")
  | some tt =>
    let task : Task :=
      { id := task_id, priority := priority, execution_time := execution_time
        arrival_time := now, task_type := tt }
    match DynamicLoadBalancer.find_optimal_idx task b1.processor_queues with
    | none => (b1, Except.error "ValueError")
    | some i =>
      let q := (b1.processor_queues.getD i dummyQueue).add_task task mem
      ({ b1 with processor_queues := b1.processor_queues.set i q }, Except.ok true)

/-- Index of `sorted(ps, key=load)[0]`: the first index holding the minimal
value (stable sort keeps the earliest minimum first). -/
def first_min_idx : List ℚ → ℕ
  | [] => 0
  | [_] => 0
  | w :: ws =>
      if ws.getD (first_min_idx ws) 0 < w then first_min_idx ws + 1 else 0

/-- Index of `sorted(ps, key=load)[-1]`: the last index holding the maximal
value (stable sort keeps the latest maximum last). -/
def last_max_idx : List ℚ → ℕ
  | [] => 0
  | [_] => 0
  | w :: ws =>
      if w ≤ ws.getD (last_max_idx ws) 0 then last_max_idx ws + 1 else 0

/-- One migration iteration of `_perform_load_balancing`:
`task = most_loaded.get_task(); if task: least_loaded.add_task(task)`. -/
def migrate_step (most least : ℕ) (mem : ℚ) (ps : List ProcessorQueue) :
    List ProcessorQueue :=
  let r := (ps.getD most dummyQueue).get_task
  let ps1 := ps.set most r.1
  match r.2 with
  | none => ps1
  | some t => ps1.set least ((ps1.getD least dummyQueue).add_task t mem)

/-- The `for _ in range(tasks_to_move)` migration loop. -/
def migrate_loop (most least : ℕ) (mem : ℕ → ℚ) : ℕ → List ProcessorQueue → List ProcessorQueue
  | 0, ps => ps
  | n + 1, ps => migrate_loop most least mem n (migrate_step most least (mem n) ps)

/-- Position of `sorted(self.processor_queues, key=load)[-1]` in the
original list (the most-loaded processor). -/
def DynamicLoadBalancer.most_loaded_idx (b : DynamicLoadBalancer) : ℕ :=
  last_max_idx (b.processor_queues.map (fun p => p.load))

/-- Position of `sorted(self.processor_queues, key=load)[0]` in the
original list (the least-loaded processor). -/
def DynamicLoadBalancer.least_loaded_idx (b : DynamicLoadBalancer) : ℕ :=
  first_min_idx (b.processor_queues.map (fun p => p.load))

/-- The most-loaded processor picked by `_perform_load_balancing`. -/
def DynamicLoadBalancer.most_loaded (b : DynamicLoadBalancer) : ProcessorQueue :=
  b.processor_queues.getD b.most_loaded_idx dummyQueue

/-- The least-loaded processor picked by `_perform_load_balancing`. -/
def DynamicLoadBalancer.least_loaded (b : DynamicLoadBalancer) : ProcessorQueue :=
  b.processor_queues.getD b.least_loaded_idx dummyQueue

/-- One tick of `_perform_load_balancing`. -/
def DynamicLoadBalancer.perform_load_balancing (b : DynamicLoadBalancer)
    (mem : ℕ → ℚ) : DynamicLoadBalancer :=
  if b.most_loaded.load - b.least_loaded.load > b.load_threshold then
    let tasks_to_move := b.most_loaded.tasks.length / 2
    let migrated := migrate_loop b.most_loaded_idx b.least_loaded_idx mem tasks_to_move b.processor_queues
    { b with processor_queues := migrated }
  else b

/-- A single-queue operation, for stating invariants over arbitrary
interleavings of admissions, withdrawals and resolutions. -/
inductive QueueOp where
  | enqueue (t : Task) (mem : ℚ)
  | withdraw
  | resolve (t : Task) (success : Bool) (mem : ℚ)

/-- Apply one `QueueOp` to a queue. -/
def applyOp (p : ProcessorQueue) : QueueOp → ProcessorQueue
  | .enqueue t mem => p.add_task t mem
  | .withdraw => (p.get_task).1
  | .resolve t success mem => p.execute_task t success mem

/-- Run a sequence of `QueueOp`s from a given queue state. -/
def runOps (p : ProcessorQueue) : List QueueOp → ProcessorQueue
  | [] => p
  | op :: ops => runOps (applyOp p op) ops

/-! Concrete states used to instantiate theorems with hypotheses. -/

/-- A concrete "balanced" task (whole-number fields). -/
def sampleTask : Task :=
  { id := "T0", priority := 1, execution_time := 2, arrival_time := 0
    task_type := ⟨"balanced", 1, 400, 1⟩ }

/-- A second, distinct concrete task (whole-number fields). -/
def sampleTask2 : Task :=
  { id := "T1", priority := 2, execution_time := 1, arrival_time := 0
    task_type := ⟨"compute_intensive", 1, 200, 0⟩ }

/-- A freshly initialised queue with capacity 100 and no specialization. -/
def emptyQueue : ProcessorQueue := ProcessorQueue.init 0 [] 100

/-- The queue `emptyQueue` after admitting `sampleTask`. -/
def oneTaskQueue : ProcessorQueue := emptyQueue.add_task sampleTask 50

/-- A freshly initialised queue specialised in "balanced" tasks. -/
def specQueue : ProcessorQueue := ProcessorQueue.init 1 ["balanced"] 100

/-- A highly loaded queue holding three pending tasks. -/
def busyQueue : ProcessorQueue :=
  { emptyQueue with load := 80, tasks := [sampleTask, sampleTask2, sampleTask] }

/-- An idle queue. -/
def idleQueue : ProcessorQueue := ProcessorQueue.init 1 [] 100

/-- A two-processor balancer with an 80-point load skew. -/
def skewedBalancer : DynamicLoadBalancer :=
  { processor_queues := [busyQueue, idleQueue], load_threshold := 70
    tasks_submitted := 0, task_types := default_task_types }

/-- A two-processor balancer with no load skew. -/
def evenBalancer : DynamicLoadBalancer :=
  { processor_queues := [idleQueue, idleQueue], load_threshold := 70
    tasks_submitted := 0, task_types := default_task_types }

/-- A constant memory-usage sample stream. -/
def constMem : ℕ → ℚ := fun _ => 50

/-- A freshly constructed two-processor balancer. -/
def freshBalancer : DynamicLoadBalancer := DynamicLoadBalancer.init 2 (fun _ => 100)

/-- A queue with load 50 and no specialization. -/
def plainLoaded : ProcessorQueue := { ProcessorQueue.init 0 [] 100 with load := 50 }

/-- A queue with load 30 and no specialization. -/
def lighterLoaded : ProcessorQueue := { ProcessorQueue.init 1 [] 100 with load := 30 }

/-- Load-50 queue with derived metrics for one pending-equivalent unit. -/
def loadedPlain : ProcessorQueue :=
  { ProcessorQueue.init 0 [] 100 with load := 50, metrics := ⟨20, 50, 0, 50, 40⟩ }

/-- As `loadedPlain` but specialised in "balanced" tasks. -/
def loadedSpecial : ProcessorQueue :=
  { ProcessorQueue.init 1 ["balanced"] 100 with load := 50, metrics := ⟨20, 50, 0, 50, 40⟩ }

/-! Helper lemmas. -/

/-- From a first-minimum decomposition of `b :: ys`, the selected element's
key is at most the head's key. -/
theorem pyMin_head_le {α : Type} (f : α → ℚ) {b r : α} {ys l1 l2 : List α}
    (hdec : b :: ys = l1 ++ r :: l2)
    (hs : ∀ q ∈ l1, f r < f q) : f r ≤ f b := by
  cases l1 with
  | nil =>
    simp only [List.nil_append, List.cons.injEq] at hdec
    rw [hdec.1]
  | cons a t =>
    rw [List.cons_append] at hdec
    have hab : b = a := (List.cons.injEq _ _ _ _ ▸ hdec).1
    rw [hab]
    exact le_of_lt (hs a (by simp))

/-- Function `pyMin` returns the first element of minimal key: the input splits as
`l1 ++ result :: l2` with every key in `l1` strictly larger and every key
in `l2` at least as large. -/
theorem pyMin_decomp {α : Type} (f : α → ℚ) (xs : List α) : ∀ b : α,
    ∃ l1 l2, b :: xs = l1 ++ (pyMin f b xs) :: l2 ∧
      (∀ q ∈ l1, f (pyMin f b xs) < f q) ∧
      (∀ q ∈ l2, f (pyMin f b xs) ≤ f q) := by
  induction xs with
  | nil =>
    intro b
    exact ⟨[], [], by simp [pyMin], by simp, by simp⟩
  | cons y ys ih =>
    intro b
    by_cases hy : f y < f b
    · obtain ⟨l1, l2, hdec, hs, hl⟩ := ih y
      refine ⟨b :: l1, l2, ?_, ?_, ?_⟩
      · simp only [pyMin, if_pos hy]
        simpa using hdec
      · intro q hq
        simp only [pyMin, if_pos hy]
        rcases List.mem_cons.mp hq with h | h
        · subst h
          exact lt_of_le_of_lt (pyMin_head_le f hdec hs) hy
        · exact hs q h
      · intro q hq
        simp only [pyMin, if_pos hy]
        exact hl q hq
    · obtain ⟨l1, l2, hdec, hs, hl⟩ := ih b
      cases l1 with
      | nil =>
        simp only [List.nil_append, List.cons.injEq] at hdec
        refine ⟨[], y :: ys, ?_, by simp, ?_⟩
        · simp only [pyMin, if_neg hy, List.nil_append, ← hdec.1]
        · intro q hq
          simp only [pyMin, if_neg hy]
          rcases List.mem_cons.mp hq with h | h
          · subst h
            rw [← hdec.1]
            exact not_lt.mp hy
          · exact hl q (hdec.2 ▸ h)
      | cons a t =>
        rw [List.cons_append] at hdec
        have hba : b = a := (List.cons.injEq _ _ _ _ ▸ hdec).1
        have hys : ys = t ++ pyMin f b ys :: l2 := (List.cons.injEq _ _ _ _ ▸ hdec).2
        refine ⟨b :: y :: t, l2, ?_, ?_, ?_⟩
        · simp only [pyMin, if_neg hy, List.cons_append]
          rw [← hys]
        · intro q hq
          simp only [pyMin, if_neg hy]
          simp only [List.mem_cons] at hq
          rcases hq with h | h | h
          · subst h
            exact hba ▸ hs a (by simp)
          · subst h
            exact lt_of_lt_of_le (hba ▸ hs a (by simp)) (not_lt.mp hy)
          · exact hs q (by simp [h])
        · intro q hq
          simp only [pyMin, if_neg hy]
          exact hl q hq

/-- C1: for every task and non-empty processor list, `_find_optimal_processor`
weighs each processor `p` as `p.load`, times `0.7` when the task's type name
is in `p.specialization`, times `1 + cpu_usage/200`, times
`1 + (temperature - 40)/100`, and returns the processor of minimal weight,
ties going to the first processor in enumeration order (the list splits
around the choice into a strictly heavier prefix and a no-lighter suffix). -/
theorem find_optimal_first_min (task : Task) (ps : List ProcessorQueue)
    (hne : ps ≠ []) :
    ∃ chosen l1 l2,
      DynamicLoadBalancer.find_optimal_processor task ps = some chosen ∧
      ps = l1 ++ chosen :: l2 ∧
      (∀ q ∈ l1, DynamicLoadBalancer.weight task chosen < DynamicLoadBalancer.weight task q) ∧
      (∀ q ∈ l2, DynamicLoadBalancer.weight task chosen ≤ DynamicLoadBalancer.weight task q) ∧
      ∀ p : ProcessorQueue, DynamicLoadBalancer.weight task p =
        (if task.task_type.name ∈ p.specialization then p.load * (7/10) else p.load)
          * (1 + p.metrics.cpu_usage / 200)
          * (1 + (p.metrics.temperature - 40) / 100) := by
  match ps, hne with
  | p :: rest, _ =>
    obtain ⟨l1, l2, hdec, hs, hl⟩ := pyMin_decomp (DynamicLoadBalancer.weight task) rest p
    exact ⟨pyMin (DynamicLoadBalancer.weight task) p rest, l1, l2, rfl, hdec, hs, hl,
      fun _ => rfl⟩

/-- Witness for `find_optimal_first_min` on a concrete two-processor pool. -/
theorem find_optimal_first_min_witness :
    ∃ chosen l1 l2,
      DynamicLoadBalancer.find_optimal_processor sampleTask [plainLoaded, lighterLoaded] = some chosen ∧
      [plainLoaded, lighterLoaded] = l1 ++ chosen :: l2 ∧
      (∀ q ∈ l1, DynamicLoadBalancer.weight sampleTask chosen < DynamicLoadBalancer.weight sampleTask q) ∧
      (∀ q ∈ l2, DynamicLoadBalancer.weight sampleTask chosen ≤ DynamicLoadBalancer.weight sampleTask q) ∧
      ∀ p : ProcessorQueue, DynamicLoadBalancer.weight sampleTask p =
        (if sampleTask.task_type.name ∈ p.specialization then p.load * (7/10) else p.load)
          * (1 + p.metrics.cpu_usage / 200)
          * (1 + (p.metrics.temperature - 40) / 100) :=
  find_optimal_first_min sampleTask [plainLoaded, lighterLoaded] (by simp)

/-- The value at `first_min_idx` is a lower bound for the list. -/
theorem first_min_idx_le : ∀ (ws : List ℚ), ws ≠ [] →
    ∀ x ∈ ws, ws.getD (first_min_idx ws) 0 ≤ x
  | [], h => absurd rfl h
  | [w], _ => by simp [first_min_idx]
  | w :: y :: ys, _ => by
    have ih := first_min_idx_le (y :: ys) (by simp)
    by_cases hlt : (y :: ys).getD (first_min_idx (y :: ys)) 0 < w
    · intro x hx
      simp only [first_min_idx, if_pos hlt, List.getD_cons_succ]
      rcases List.mem_cons.mp hx with h | h
      · exact h ▸ le_of_lt hlt
      · exact ih x h
    · intro x hx
      simp only [first_min_idx, if_neg hlt, List.getD_cons_zero]
      rcases List.mem_cons.mp hx with h | h
      · exact h ▸ le_refl w
      · exact le_trans (not_lt.mp hlt) (ih x h)

/-- The value at `last_max_idx` is an upper bound for the list. -/
theorem last_max_idx_ge : ∀ (ws : List ℚ), ws ≠ [] →
    ∀ x ∈ ws, x ≤ ws.getD (last_max_idx ws) 0
  | [], h => absurd rfl h
  | [w], _ => by simp [last_max_idx]
  | w :: y :: ys, _ => by
    have ih := last_max_idx_ge (y :: ys) (by simp)
    by_cases hle : w ≤ (y :: ys).getD (last_max_idx (y :: ys)) 0
    · intro x hx
      simp only [last_max_idx, if_pos hle, List.getD_cons_succ]
      rcases List.mem_cons.mp hx with h | h
      · exact h ▸ hle
      · exact ih x h
    · intro x hx
      simp only [last_max_idx, if_neg hle, List.getD_cons_zero]
      rcases List.mem_cons.mp hx with h | h
      · exact h ▸ le_refl w
      · exact le_trans (ih x h) (le_of_lt (not_le.mp hle))

/-- Reading the load list at an index agrees with reading the queue list
(the fallback queue has load 0, matching the fallback load). -/
theorem getD_map_load : ∀ (ps : List ProcessorQueue) (i : ℕ),
    (ps.map (fun p => p.load)).getD i 0 = (ps.getD i dummyQueue).load
  | [], i => by simp [dummyQueue, ProcessorQueue.init]
  | p :: ps, 0 => by simp
  | p :: ps, i + 1 => by simpa using getD_map_load ps i

/-- C2: a rebalancing tick migrates only when the most-loaded processor's
load exceeds the least-loaded's by strictly more than `load_threshold`
(state is unchanged otherwise, including at exact equality), and when it
does it runs `floor(pending(most)/2)` withdraw-then-admit iterations, the
count snapshotted at decision time; moreover the picked processors carry
the maximal and minimal loads of the pool. -/
theorem perform_load_balancing_spec (b : DynamicLoadBalancer) (mem : ℕ → ℚ) :
    (b.most_loaded.load - b.least_loaded.load ≤ b.load_threshold →
      b.perform_load_balancing mem = b) ∧
    (b.load_threshold < b.most_loaded.load - b.least_loaded.load →
      b.perform_load_balancing mem =
        { b with processor_queues := migrate_loop b.most_loaded_idx b.least_loaded_idx mem (b.most_loaded.tasks.length / 2) b.processor_queues }) ∧
    (∀ p ∈ b.processor_queues,
      b.least_loaded.load ≤ p.load ∧ p.load ≤ b.most_loaded.load) := by
  refine ⟨?_, ?_, ?_⟩
  · intro h
    simp [DynamicLoadBalancer.perform_load_balancing, not_lt.mpr h]
  · intro h
    simp [DynamicLoadBalancer.perform_load_balancing, h]
  · intro p hp
    have hmapne : b.processor_queues.map (fun q => q.load) ≠ [] := by
      intro hmap
      exact (List.ne_nil_of_mem hp) (List.map_eq_nil_iff.mp hmap)
    have hmem : p.load ∈ b.processor_queues.map (fun q => q.load) :=
      List.mem_map_of_mem _ hp
    constructor
    · have h1 := first_min_idx_le _ hmapne p.load hmem
      rwa [getD_map_load] at h1
    · have h1 := last_max_idx_ge _ hmapne p.load hmem
      rwa [getD_map_load] at h1

/-- Witness for `perform_load_balancing_spec`: the no-skew balancer is left
untouched, the 80-point-skew balancer migrates one task, and the chosen
processors bound the member loads. -/
theorem perform_load_balancing_spec_witness :
    (evenBalancer.perform_load_balancing constMem = evenBalancer) ∧
    (skewedBalancer.perform_load_balancing constMem =
      { skewedBalancer with processor_queues := migrate_loop skewedBalancer.most_loaded_idx skewedBalancer.least_loaded_idx constMem (skewedBalancer.most_loaded.tasks.length / 2) skewedBalancer.processor_queues }) ∧
    (skewedBalancer.least_loaded.load ≤ busyQueue.load ∧
      busyQueue.load ≤ skewedBalancer.most_loaded.load) :=
  ⟨(perform_load_balancing_spec evenBalancer constMem).1 (by
      norm_num [evenBalancer, idleQueue, ProcessorQueue.init,
        DynamicLoadBalancer.most_loaded, DynamicLoadBalancer.least_loaded,
        DynamicLoadBalancer.most_loaded_idx, DynamicLoadBalancer.least_loaded_idx,
        last_max_idx, first_min_idx]),
   (perform_load_balancing_spec skewedBalancer constMem).2.1 (by
      norm_num [skewedBalancer, idleQueue, busyQueue, emptyQueue, ProcessorQueue.init,
        DynamicLoadBalancer.most_loaded, DynamicLoadBalancer.least_loaded,
        DynamicLoadBalancer.most_loaded_idx, DynamicLoadBalancer.least_loaded_idx,
        last_max_idx, first_min_idx]),
   (perform_load_balancing_spec skewedBalancer constMem).2.2 busyQueue (by simp [skewedBalancer])⟩

/-- Appending then conditionally dropping the oldest entry keeps the new
value as the last entry. -/
theorem history_append_getLast (l : List ℚ) (a : ℚ) :
    (if 100 < (l ++ [a]).length then (l ++ [a]).tail else l ++ [a]).getLast? = some a := by
  split
  · cases l with
    | nil => simp_all
    | cons x xs => simp [List.getLast?_concat]
  · exact List.getLast?_concat _

/-- Appending then conditionally dropping the oldest entry preserves the
100-entry bound. -/
theorem history_append_length (l : List ℚ) (a : ℚ) (h : l.length ≤ 100) :
    (if 100 < (l ++ [a]).length then (l ++ [a]).tail else l ++ [a]).length ≤ 100 := by
  split <;>
    simp only [List.length_tail, List.length_append, List.length_cons, List.length_nil] at * <;>
    omega

/-- Full characterisation of `update_load`: the recomputed load, the
untouched fields, and the history ring-buffer behaviour. -/
theorem update_load_spec (p : ProcessorQueue) :
    (p.update_load).load = ((p.update_load).tasks.length : ℚ) * 100 / p.capacity ∧
    (p.update_load).tasks = p.tasks ∧
    (p.update_load).capacity = p.capacity ∧
    (p.update_load).load_history =
      (if 100 < (p.load_history ++ [(p.update_load).load]).length
        then (p.load_history ++ [(p.update_load).load]).tail
        else p.load_history ++ [(p.update_load).load]) ∧
    (p.update_load).load_history.getLast? = some (p.update_load).load ∧
    (p.load_history.length ≤ 100 → (p.update_load).load_history.length ≤ 100) := by
  refine ⟨rfl, rfl, rfl, rfl, ?_, ?_⟩
  · exact history_append_getLast p.load_history _
  · exact fun h => history_append_length p.load_history _ h

/-- C3: immediately after an admit, a non-empty withdraw, or a resolve that
finds its task pending, `load` equals `pending_count * 100 / capacity`, the
new load is appended as the last `load_history` entry, and the history
stays within 100 entries, dropping the oldest entry first. -/
theorem load_history_invariant (p : ProcessorQueue) (t tr : Task) (s : Bool) (m : ℚ) :
    ((p.add_task t m).load = ((p.add_task t m).tasks.length : ℚ) * 100 / p.capacity ∧
      (p.add_task t m).load_history =
        (if 100 < (p.load_history ++ [(p.add_task t m).load]).length
          then (p.load_history ++ [(p.add_task t m).load]).tail
          else p.load_history ++ [(p.add_task t m).load]) ∧
      (p.add_task t m).load_history.getLast? = some (p.add_task t m).load ∧
      (p.load_history.length ≤ 100 → (p.add_task t m).load_history.length ≤ 100)) ∧
    (p.tasks ≠ [] →
      ((p.get_task).1.load = (((p.get_task).1.tasks.length : ℚ)) * 100 / p.capacity ∧
        (p.get_task).1.load_history =
          (if 100 < (p.load_history ++ [(p.get_task).1.load]).length
            then (p.load_history ++ [(p.get_task).1.load]).tail
            else p.load_history ++ [(p.get_task).1.load]) ∧
        (p.get_task).1.load_history.getLast? = some (p.get_task).1.load ∧
        (p.load_history.length ≤ 100 → (p.get_task).1.load_history.length ≤ 100))) ∧
    (tr ∈ p.tasks →
      ((p.execute_task tr s m).load = ((p.execute_task tr s m).tasks.length : ℚ) * 100 / p.capacity ∧
        (p.execute_task tr s m).load_history =
          (if 100 < (p.load_history ++ [(p.execute_task tr s m).load]).length
            then (p.load_history ++ [(p.execute_task tr s m).load]).tail
            else p.load_history ++ [(p.execute_task tr s m).load]) ∧
        (p.execute_task tr s m).load_history.getLast? = some (p.execute_task tr s m).load ∧
        (p.load_history.length ≤ 100 → (p.execute_task tr s m).load_history.length ≤ 100))) := by
  refine ⟨?_, ?_, ?_⟩
  · have h := update_load_spec { p with tasks := p.tasks ++ [t] }
    exact ⟨h.1, h.2.2.2.1, h.2.2.2.2.1, h.2.2.2.2.2⟩
  · intro hne
    obtain ⟨pid, tks, ld, ttp, tet, sp, mets, ft, st, lh, cap⟩ := p
    cases tks with
    | nil => exact absurd rfl hne
    | cons a rest =>
      have h := update_load_spec (ProcessorQueue.mk pid rest ld ttp tet sp mets ft st lh cap)
      exact ⟨h.1, h.2.2.2.1, h.2.2.2.2.1, h.2.2.2.2.2⟩
  · intro hmem
    cases s with
    | false =>
      have hexec : p.execute_task tr false m =
          (({ p with tasks := p.tasks.erase tr, failed_tasks := p.failed_tasks + 1 }).update_load).update_metrics m := by
        unfold ProcessorQueue.execute_task
        rw [if_pos hmem]
        rfl
      rw [hexec]
      have h := update_load_spec { p with tasks := p.tasks.erase tr, failed_tasks := p.failed_tasks + 1 }
      exact ⟨h.1, h.2.2.2.1, h.2.2.2.2.1, h.2.2.2.2.2⟩
    | true =>
      have hexec : p.execute_task tr true m =
          (({ p with tasks := p.tasks.erase tr, successful_tasks := p.successful_tasks + 1 }).update_load).update_metrics m := by
        unfold ProcessorQueue.execute_task
        rw [if_pos hmem]
        rfl
      rw [hexec]
      have h := update_load_spec { p with tasks := p.tasks.erase tr, successful_tasks := p.successful_tasks + 1 }
      exact ⟨h.1, h.2.2.2.1, h.2.2.2.2.1, h.2.2.2.2.2⟩

/-- Witness for `load_history_invariant` on a one-task queue. -/
theorem load_history_invariant_witness :
    ((oneTaskQueue.add_task sampleTask2 30).load = ((oneTaskQueue.add_task sampleTask2 30).tasks.length : ℚ) * 100 / oneTaskQueue.capacity ∧
      (oneTaskQueue.add_task sampleTask2 30).load_history =
        (if 100 < (oneTaskQueue.load_history ++ [(oneTaskQueue.add_task sampleTask2 30).load]).length
          then (oneTaskQueue.load_history ++ [(oneTaskQueue.add_task sampleTask2 30).load]).tail
          else oneTaskQueue.load_history ++ [(oneTaskQueue.add_task sampleTask2 30).load]) ∧
      (oneTaskQueue.add_task sampleTask2 30).load_history.getLast? = some (oneTaskQueue.add_task sampleTask2 30).load ∧
      (oneTaskQueue.load_history.length ≤ 100 → (oneTaskQueue.add_task sampleTask2 30).load_history.length ≤ 100)) ∧
    ((oneTaskQueue.get_task).1.load = (((oneTaskQueue.get_task).1.tasks.length : ℚ)) * 100 / oneTaskQueue.capacity ∧
      (oneTaskQueue.get_task).1.load_history =
        (if 100 < (oneTaskQueue.load_history ++ [(oneTaskQueue.get_task).1.load]).length
          then (oneTaskQueue.load_history ++ [(oneTaskQueue.get_task).1.load]).tail
          else oneTaskQueue.load_history ++ [(oneTaskQueue.get_task).1.load]) ∧
      (oneTaskQueue.get_task).1.load_history.getLast? = some (oneTaskQueue.get_task).1.load ∧
      (oneTaskQueue.load_history.length ≤ 100 → (oneTaskQueue.get_task).1.load_history.length ≤ 100)) ∧
    ((oneTaskQueue.execute_task sampleTask true 30).load = ((oneTaskQueue.execute_task sampleTask true 30).tasks.length : ℚ) * 100 / oneTaskQueue.capacity ∧
      (oneTaskQueue.execute_task sampleTask true 30).load_history =
        (if 100 < (oneTaskQueue.load_history ++ [(oneTaskQueue.execute_task sampleTask true 30).load]).length
          then (oneTaskQueue.load_history ++ [(oneTaskQueue.execute_task sampleTask true 30).load]).tail
          else oneTaskQueue.load_history ++ [(oneTaskQueue.execute_task sampleTask true 30).load]) ∧
      (oneTaskQueue.execute_task sampleTask true 30).load_history.getLast? = some (oneTaskQueue.execute_task sampleTask true 30).load ∧
      (oneTaskQueue.load_history.length ≤ 100 → (oneTaskQueue.execute_task sampleTask true 30).load_history.length ≤ 100)) :=
  ⟨(load_history_invariant oneTaskQueue sampleTask2 sampleTask true 30).1,
   (load_history_invariant oneTaskQueue sampleTask2 sampleTask true 30).2.1
     (by rw [show oneTaskQueue.tasks = [sampleTask] from rfl]; simp),
   (load_history_invariant oneTaskQueue sampleTask2 sampleTask true 30).2.2
     (by rw [show oneTaskQueue.tasks = [sampleTask] from rfl]; simp)⟩

/-- C4 counterexample: `total_tasks_processed`/`total_execution_time` are
incremented at admission (`_simulate_task_execution` runs inside
`add_task`), not at resolution, so after one admission and no resolution
the total is already 1; a task migrated from queue A to queue B is
admitted twice and ends with a summed `total_tasks_processed` of 2, not 1,
while `successful_tasks` sums to 1. -/
theorem counters_on_resolve_counterexample :
    oneTaskQueue.total_tasks_processed = 1 ∧
    oneTaskQueue.successful_tasks + oneTaskQueue.failed_tasks = 0 ∧
    (oneTaskQueue.get_task).2 = some sampleTask ∧
    (oneTaskQueue.get_task).1.total_tasks_processed
      + ((idleQueue.add_task sampleTask 50).execute_task sampleTask true 50).total_tasks_processed = 2 ∧
    (oneTaskQueue.get_task).1.successful_tasks
      + ((idleQueue.add_task sampleTask 50).execute_task sampleTask true 50).successful_tasks = 1 ∧
    (2 : ℕ) ≠ 1 :=
  ⟨rfl, rfl, rfl, by decide, by decide, by omega⟩

/-- C4 (amended): `total_tasks_processed` and `total_execution_time` are
incremented on every admission (so once per admission of a migrated task);
`successful_tasks`/`failed_tasks` are incremented exactly when a
resolution finds the task still pending; withdraw touches no counter. -/
theorem counters_on_admission_resolve (p : ProcessorQueue) (t : Task) (s : Bool) (m : ℚ) :
    ((p.add_task t m).total_tasks_processed = p.total_tasks_processed + 1 ∧
      (p.add_task t m).total_execution_time = p.total_execution_time + t.execution_time ∧
      (p.add_task t m).successful_tasks = p.successful_tasks ∧
      (p.add_task t m).failed_tasks = p.failed_tasks) ∧
    ((p.get_task).1.total_tasks_processed = p.total_tasks_processed ∧
      (p.get_task).1.total_execution_time = p.total_execution_time ∧
      (p.get_task).1.successful_tasks = p.successful_tasks ∧
      (p.get_task).1.failed_tasks = p.failed_tasks) ∧
    ((p.execute_task t s m).total_tasks_processed = p.total_tasks_processed ∧
      (p.execute_task t s m).total_execution_time = p.total_execution_time) ∧
    (t ∈ p.tasks → s = true →
      (p.execute_task t s m).successful_tasks = p.successful_tasks + 1 ∧
      (p.execute_task t s m).failed_tasks = p.failed_tasks) ∧
    (t ∈ p.tasks → s = false →
      (p.execute_task t s m).failed_tasks = p.failed_tasks + 1 ∧
      (p.execute_task t s m).successful_tasks = p.successful_tasks) ∧
    (t ∉ p.tasks →
      (p.execute_task t s m).successful_tasks = p.successful_tasks ∧
      (p.execute_task t s m).failed_tasks = p.failed_tasks) := by
  refine ⟨⟨rfl, rfl, rfl, rfl⟩, ?_, ?_, ?_, ?_, ?_⟩
  · obtain ⟨pid, tks, ld, ttp, tet, sp, mets, ft, st, lh, cap⟩ := p
    cases tks <;> exact ⟨rfl, rfl, rfl, rfl⟩
  · by_cases hm : t ∈ p.tasks
    · cases s <;>
        simp [ProcessorQueue.execute_task, hm, ProcessorQueue.update_load,
          ProcessorQueue.update_metrics]
    · simp [ProcessorQueue.execute_task, hm]
  · intro hm hs
    subst hs
    simp [ProcessorQueue.execute_task, hm, ProcessorQueue.update_load,
      ProcessorQueue.update_metrics]
  · intro hm hs
    subst hs
    simp [ProcessorQueue.execute_task, hm, ProcessorQueue.update_load,
      ProcessorQueue.update_metrics]
  · intro hm
    simp [ProcessorQueue.execute_task, hm]

/-- Witness for `counters_on_admission_resolve` on concrete queues. -/
theorem counters_on_admission_resolve_witness :
    ((oneTaskQueue.add_task sampleTask2 30).total_tasks_processed = oneTaskQueue.total_tasks_processed + 1) ∧
    ((oneTaskQueue.execute_task sampleTask true 30).successful_tasks = oneTaskQueue.successful_tasks + 1 ∧
      (oneTaskQueue.execute_task sampleTask true 30).failed_tasks = oneTaskQueue.failed_tasks) ∧
    ((oneTaskQueue.execute_task sampleTask false 30).failed_tasks = oneTaskQueue.failed_tasks + 1 ∧
      (oneTaskQueue.execute_task sampleTask false 30).successful_tasks = oneTaskQueue.successful_tasks) ∧
    ((oneTaskQueue.execute_task sampleTask2 true 30).successful_tasks = oneTaskQueue.successful_tasks ∧
      (oneTaskQueue.execute_task sampleTask2 true 30).failed_tasks = oneTaskQueue.failed_tasks) :=
  ⟨(counters_on_admission_resolve oneTaskQueue sampleTask2 true 30).1.1,
   (counters_on_admission_resolve oneTaskQueue sampleTask true 30).2.2.2.1
     (by rw [show oneTaskQueue.tasks = [sampleTask] from rfl]; simp) rfl,
   (counters_on_admission_resolve oneTaskQueue sampleTask false 30).2.2.2.2.1
     (by rw [show oneTaskQueue.tasks = [sampleTask] from rfl]; simp) rfl,
   (counters_on_admission_resolve oneTaskQueue sampleTask2 true 30).2.2.2.2.2
     (by rw [show oneTaskQueue.tasks = [sampleTask] from rfl]; decide)⟩

/-- C5 counterexample: `submit_task` increments `tasks_submitted` before
the catalog lookup, so rejecting an unknown type name still mutates the
balancer: on a fresh balancer the counter goes from 0 to 1 even though the
submission fails. -/
theorem submit_unknown_type_counterexample :
    freshBalancer.tasks_submitted = 0 ∧
    (freshBalancer.submit_task "T1" 1 2 "bogus" 0 50).2 = Except.error "KeyError" ∧
    (freshBalancer.submit_task "T1" 1 2 "bogus" 0 50).1.tasks_submitted = 1 ∧
    (1 : ℕ) ≠ 0 :=
  ⟨rfl, rfl, rfl, by omega⟩

/-- C5 (amended): submitting an unknown type name fails synchronously with
the `KeyError` raised by the catalog indexing; no task is created and no
processor changes, but `tasks_submitted` has already been incremented. -/
theorem submit_unknown_type_spec (b : DynamicLoadBalancer) (task_id : String)
    (priority : ℤ) (execution_time now mem : ℚ) (task_type : String)
    (h : b.task_types.lookup task_type = none) :
    b.submit_task task_id priority execution_time task_type now mem =
      ({ b with tasks_submitted := b.tasks_submitted + 1 }, Except.error "KeyError") := by
  unfold DynamicLoadBalancer.submit_task
  simp [h]

/-- Witness for `submit_unknown_type_spec`. -/
theorem submit_unknown_type_spec_witness :
    freshBalancer.submit_task "T2" 2 1 "no_such_type" 3 7 =
      ({ freshBalancer with tasks_submitted := freshBalancer.tasks_submitted + 1 },
        Except.error "KeyError") :=
  submit_unknown_type_spec freshBalancer "T2" 2 1 3 7 "no_such_type" (by decide)

/-- C6 counterexample: `DynamicLoadBalancer.__init__` accepts
`num_processors = 0` without any error, yielding a balancer whose pool is
empty — construction is not rejected, contradicting the claimed
`ProcessorPoolEmpty` error. -/
theorem zero_processors_counterexample :
    (DynamicLoadBalancer.init 0 (fun _ => 100)).processor_queues = [] ∧
    (DynamicLoadBalancer.init 0 (fun _ => 100)).load_threshold = 70 ∧
    (DynamicLoadBalancer.init 0 (fun _ => 100)).task_types = default_task_types :=
  ⟨rfl, rfl, rfl⟩

/-- C6 (amended): constructing with zero processors succeeds and yields an
empty pool; the failure only surfaces on the first submission, where the
placement policy has no candidate (Python's `min` raises `ValueError`) or
the catalog lookup fails first (`KeyError`). -/
theorem zero_processors_spec (caps : ℕ → ℚ) (task_id : String) (priority : ℤ)
    (execution_time now mem : ℚ) (task_type : String) :
    (DynamicLoadBalancer.init 0 caps).processor_queues = [] ∧
    (((DynamicLoadBalancer.init 0 caps).submit_task task_id priority execution_time task_type now mem).2 = Except.error "KeyError" ∨
      ((DynamicLoadBalancer.init 0 caps).submit_task task_id priority execution_time task_type now mem).2 = Except.error "ValueError") := by
  refine ⟨by simp [DynamicLoadBalancer.init], ?_⟩
  unfold DynamicLoadBalancer.submit_task
  cases h : List.lookup task_type default_task_types with
  | none => simp [DynamicLoadBalancer.init, h]
  | some tt =>
    simp [DynamicLoadBalancer.init, h, DynamicLoadBalancer.find_optimal_idx]

/-- C7 counterexample: `get_task` (withdraw) recomputes the load but not
the metrics, so after withdrawing the only task the pending count is 0 yet
`cpu_usage` keeps its pre-withdraw value 20 instead of the claimed
`min(100, 0*20) = 0`. -/
theorem withdraw_metrics_counterexample :
    (oneTaskQueue.get_task).1.tasks.length = 0 ∧
    (oneTaskQueue.get_task).1.metrics.cpu_usage = 20 ∧
    min (100 : ℚ) ((((oneTaskQueue.get_task).1.tasks.length : ℕ) : ℚ) * 20) = 0 ∧
    (20 : ℚ) ≠ 0 := by
  refine ⟨rfl, ?_, ?_, by norm_num⟩
  · rw [show (oneTaskQueue.get_task).1.metrics = oneTaskQueue.metrics from rfl]
    rw [show oneTaskQueue.metrics.cpu_usage = min 100 ((1 : ℚ) * 20) from rfl]
    norm_num
  · rw [show (oneTaskQueue.get_task).1.tasks.length = 0 from rfl]
    norm_num

/-- C7 (amended): metrics are recomputed — `cpu_usage = min(100,
pending*20)`, `memory_usage` = the sampled value, `temperature = 40 +
cpu_usage/2`, `power_consumption = cpu_usage*2` — after admit and after a
resolve that finds its task pending, while withdraw leaves the metrics
unchanged. -/
theorem metrics_recompute_spec (p : ProcessorQueue) (t tr : Task) (s : Bool) (m : ℚ) :
    ((p.add_task t m).metrics.cpu_usage = min 100 (((p.add_task t m).tasks.length : ℚ) * 20) ∧
      (p.add_task t m).metrics.memory_usage = m ∧
      (p.add_task t m).metrics.temperature = 40 + (p.add_task t m).metrics.cpu_usage / 2 ∧
      (p.add_task t m).metrics.power_consumption = (p.add_task t m).metrics.cpu_usage * 2) ∧
    ((p.get_task).1.metrics = p.metrics) ∧
    (tr ∈ p.tasks →
      ((p.execute_task tr s m).metrics.cpu_usage = min 100 (((p.execute_task tr s m).tasks.length : ℚ) * 20) ∧
        (p.execute_task tr s m).metrics.memory_usage = m ∧
        (p.execute_task tr s m).metrics.temperature = 40 + (p.execute_task tr s m).metrics.cpu_usage / 2 ∧
        (p.execute_task tr s m).metrics.power_consumption = (p.execute_task tr s m).metrics.cpu_usage * 2)) := by
  refine ⟨⟨rfl, rfl, rfl, rfl⟩, ?_, ?_⟩
  · obtain ⟨pid, tks, ld, ttp, tet, sp, mets, ft, st, lh, cap⟩ := p
    cases tks <;> rfl
  · intro hmem
    cases s with
    | false =>
      have hexec : p.execute_task tr false m =
          (({ p with tasks := p.tasks.erase tr, failed_tasks := p.failed_tasks + 1 }).update_load).update_metrics m := by
        unfold ProcessorQueue.execute_task
        rw [if_pos hmem]
        rfl
      rw [hexec]
      exact ⟨rfl, rfl, rfl, rfl⟩
    | true =>
      have hexec : p.execute_task tr true m =
          (({ p with tasks := p.tasks.erase tr, successful_tasks := p.successful_tasks + 1 }).update_load).update_metrics m := by
        unfold ProcessorQueue.execute_task
        rw [if_pos hmem]
        rfl
      rw [hexec]
      exact ⟨rfl, rfl, rfl, rfl⟩

/-- Witness for `metrics_recompute_spec` on a one-task queue. -/
theorem metrics_recompute_spec_witness :
    ((oneTaskQueue.add_task sampleTask2 30).metrics.cpu_usage = min 100 (((oneTaskQueue.add_task sampleTask2 30).tasks.length : ℚ) * 20) ∧
      (oneTaskQueue.add_task sampleTask2 30).metrics.memory_usage = 30 ∧
      (oneTaskQueue.add_task sampleTask2 30).metrics.temperature = 40 + (oneTaskQueue.add_task sampleTask2 30).metrics.cpu_usage / 2 ∧
      (oneTaskQueue.add_task sampleTask2 30).metrics.power_consumption = (oneTaskQueue.add_task sampleTask2 30).metrics.cpu_usage * 2) ∧
    ((oneTaskQueue.get_task).1.metrics = oneTaskQueue.metrics) ∧
    ((oneTaskQueue.execute_task sampleTask true 30).metrics.cpu_usage = min 100 (((oneTaskQueue.execute_task sampleTask true 30).tasks.length : ℚ) * 20) ∧
      (oneTaskQueue.execute_task sampleTask true 30).metrics.memory_usage = 30 ∧
      (oneTaskQueue.execute_task sampleTask true 30).metrics.temperature = 40 + (oneTaskQueue.execute_task sampleTask true 30).metrics.cpu_usage / 2 ∧
      (oneTaskQueue.execute_task sampleTask true 30).metrics.power_consumption = (oneTaskQueue.execute_task sampleTask true 30).metrics.cpu_usage * 2) :=
  ⟨(metrics_recompute_spec oneTaskQueue sampleTask2 sampleTask true 30).1,
   (metrics_recompute_spec oneTaskQueue sampleTask2 sampleTask true 30).2.1,
   (metrics_recompute_spec oneTaskQueue sampleTask2 sampleTask true 30).2.2
     (by rw [show oneTaskQueue.tasks = [sampleTask] from rfl]; simp)⟩

/-- C8: withdraw on a non-empty queue removes and returns the FIFO head;
withdraw on an empty queue returns the `none` sentinel and changes nothing;
a resolve whose task is no longer pending is a silent no-op that leaves the
whole queue state (pending tasks, load, metrics, counters) unchanged. -/
theorem withdraw_resolve_total (p : ProcessorQueue) (a tr : Task) (rest : List Task)
    (s : Bool) (m : ℚ) :
    (p.tasks = a :: rest → (p.get_task).2 = some a ∧ (p.get_task).1.tasks = rest) ∧
    (p.tasks = [] → p.get_task = (p, none)) ∧
    (tr ∉ p.tasks → p.execute_task tr s m = p) := by
  obtain ⟨pid, tks, ld, ttp, tet, sp, mets, ft, st, lh, cap⟩ := p
  refine ⟨?_, ?_, ?_⟩
  · intro h
    cases h
    exact ⟨rfl, rfl⟩
  · intro h
    cases h
    rfl
  · intro h
    simp only [ProcessorQueue.execute_task, if_neg h]

/-- Witness for `withdraw_resolve_total` on concrete queues. -/
theorem withdraw_resolve_total_witness :
    ((oneTaskQueue.get_task).2 = some sampleTask ∧ (oneTaskQueue.get_task).1.tasks = []) ∧
    (emptyQueue.get_task = (emptyQueue, none)) ∧
    (oneTaskQueue.execute_task sampleTask2 true 30 = oneTaskQueue) :=
  ⟨(withdraw_resolve_total oneTaskQueue sampleTask sampleTask2 [] true 30).1
     (by rw [show oneTaskQueue.tasks = [sampleTask] from rfl]),
   (withdraw_resolve_total emptyQueue sampleTask sampleTask2 [] true 30).2.1 rfl,
   (withdraw_resolve_total oneTaskQueue sampleTask sampleTask2 [] true 30).2.2
     (by rw [show oneTaskQueue.tasks = [sampleTask] from rfl]; decide)⟩

/-- C9 counterexample: with both processors at load 0 (and identical
metrics), the specialized processor's weight equals the other's (0 = 0.7·0),
and the tie goes to the first processor in enumeration order — here the
non-specialized one — so the specialized processor is not preferred. -/
theorem specialization_tie_counterexample :
    emptyQueue.load = specQueue.load ∧
    emptyQueue.metrics = specQueue.metrics ∧
    sampleTask.task_type.name ∉ emptyQueue.specialization ∧
    sampleTask.task_type.name ∈ specQueue.specialization ∧
    DynamicLoadBalancer.find_optimal_processor sampleTask [emptyQueue, specQueue] = some emptyQueue ∧
    emptyQueue ≠ specQueue := by
  refine ⟨rfl, rfl, by decide, by decide, ?_, by decide⟩
  show some (pyMin (DynamicLoadBalancer.weight sampleTask) emptyQueue [specQueue]) = some emptyQueue
  have hw : DynamicLoadBalancer.weight sampleTask specQueue
      = DynamicLoadBalancer.weight sampleTask emptyQueue := by
    norm_num [DynamicLoadBalancer.weight, emptyQueue, specQueue, ProcessorQueue.init, sampleTask]
  simp [pyMin, hw]

/-- C9 (amended): for two processors identical in load and metrics and
differing only in containing the task's type in their specialization, the
specialized one's weight is exactly 0.7 times the other's; when the common
load is positive (with the derived metrics bounds `cpu_usage ≥ 0`,
`temperature ≥ 40`), its weight is strictly lower and the placement policy
prefers it regardless of enumeration order.  At load 0 the weights tie and
the first-listed processor wins (see the counterexample). -/
theorem specialization_discount (task : Task) (p1 p2 : ProcessorQueue)
    (hload : p1.load = p2.load) (hmet : p1.metrics = p2.metrics)
    (h1 : task.task_type.name ∉ p1.specialization)
    (h2 : task.task_type.name ∈ p2.specialization) :
    DynamicLoadBalancer.weight task p2 = (7/10) * DynamicLoadBalancer.weight task p1 ∧
    (0 < p2.load → 0 ≤ p2.metrics.cpu_usage → 40 ≤ p2.metrics.temperature →
      (DynamicLoadBalancer.weight task p2 < DynamicLoadBalancer.weight task p1 ∧
        DynamicLoadBalancer.find_optimal_processor task [p1, p2] = some p2 ∧
        DynamicLoadBalancer.find_optimal_processor task [p2, p1] = some p2)) := by
  have hw1 : DynamicLoadBalancer.weight task p1 =
      p2.load * (1 + p2.metrics.cpu_usage / 200) * (1 + (p2.metrics.temperature - 40) / 100) := by
    simp only [DynamicLoadBalancer.weight, if_neg h1, hload, hmet]
  have hw2 : DynamicLoadBalancer.weight task p2 =
      p2.load * (7/10) * (1 + p2.metrics.cpu_usage / 200) * (1 + (p2.metrics.temperature - 40) / 100) := by
    simp only [DynamicLoadBalancer.weight, if_pos h2]
  constructor
  · rw [hw1, hw2]; ring
  · intro hpos hcpu htemp
    have ha : (0:ℚ) < 1 + p2.metrics.cpu_usage / 200 := by positivity
    have hb : (0:ℚ) < 1 + (p2.metrics.temperature - 40) / 100 := by
      have : (0:ℚ) ≤ p2.metrics.temperature - 40 := by linarith
      positivity
    have hlt : DynamicLoadBalancer.weight task p2 < DynamicLoadBalancer.weight task p1 := by
      rw [hw1, hw2]
      nlinarith [mul_pos (mul_pos hpos ha) hb]
    refine ⟨hlt, ?_, ?_⟩
    · show some (pyMin (DynamicLoadBalancer.weight task) p1 [p2]) = some p2
      simp [pyMin, if_pos hlt]
    · show some (pyMin (DynamicLoadBalancer.weight task) p2 [p1]) = some p2
      simp [pyMin, if_neg (not_lt.mpr (le_of_lt hlt))]

/-- Witness for `specialization_discount` at equal positive load 50. -/
theorem specialization_discount_witness :
    (DynamicLoadBalancer.weight sampleTask loadedSpecial
        = (7/10) * DynamicLoadBalancer.weight sampleTask loadedPlain) ∧
    (DynamicLoadBalancer.weight sampleTask loadedSpecial < DynamicLoadBalancer.weight sampleTask loadedPlain ∧
      DynamicLoadBalancer.find_optimal_processor sampleTask [loadedPlain, loadedSpecial] = some loadedSpecial ∧
      DynamicLoadBalancer.find_optimal_processor sampleTask [loadedSpecial, loadedPlain] = some loadedSpecial) :=
  ⟨(specialization_discount sampleTask loadedPlain loadedSpecial rfl rfl
      (by decide) (by decide)).1,
   (specialization_discount sampleTask loadedPlain loadedSpecial rfl rfl
      (by decide) (by decide)).2
     (by norm_num [loadedSpecial, ProcessorQueue.init])
     (by norm_num [loadedSpecial, ProcessorQueue.init])
     (by norm_num [loadedSpecial, ProcessorQueue.init])⟩

/-- One step of any queue operation preserves
`successful + failed + pending ≤ total_tasks_processed`. -/
theorem counter_inv_step (p : ProcessorQueue) (op : QueueOp)
    (h : p.successful_tasks + p.failed_tasks + p.tasks.length ≤ p.total_tasks_processed) :
    (applyOp p op).successful_tasks + (applyOp p op).failed_tasks + (applyOp p op).tasks.length
      ≤ (applyOp p op).total_tasks_processed := by
  cases op with
  | enqueue t mem =>
    simp only [applyOp, ProcessorQueue.add_task, ProcessorQueue.update_load,
      ProcessorQueue.update_metrics, List.length_append, List.length_cons, List.length_nil]
    omega
  | withdraw =>
    obtain ⟨pid, tks, ld, ttp, tet, sp, mets, ft, st, lh, cap⟩ := p
    cases tks with
    | nil => exact h
    | cons a rest =>
      simp only [applyOp, ProcessorQueue.get_task, ProcessorQueue.update_load] at *
      simp only [List.length_cons] at h
      omega
  | resolve t s mem =>
    by_cases hm : t ∈ p.tasks
    · have hlen := List.length_erase_add_one hm
      have hexec : ∀ q : ProcessorQueue, ((q.update_load).update_metrics mem).successful_tasks = q.successful_tasks ∧
          ((q.update_load).update_metrics mem).failed_tasks = q.failed_tasks ∧
          ((q.update_load).update_metrics mem).tasks = q.tasks ∧
          ((q.update_load).update_metrics mem).total_tasks_processed = q.total_tasks_processed :=
        fun q => ⟨rfl, rfl, rfl, rfl⟩
      cases s with
      | false =>
        have heq : applyOp p (QueueOp.resolve t false mem) =
            (({ p with tasks := p.tasks.erase t, failed_tasks := p.failed_tasks + 1 }).update_load).update_metrics mem := by
          simp only [applyOp]
          unfold ProcessorQueue.execute_task
          rw [if_pos hm]
          rfl
        rw [heq]
        obtain ⟨e1, e2, e3, e4⟩ := hexec { p with tasks := p.tasks.erase t, failed_tasks := p.failed_tasks + 1 }
        rw [e1, e2, e3, e4]
        simp only []
        omega
      | true =>
        have heq : applyOp p (QueueOp.resolve t true mem) =
            (({ p with tasks := p.tasks.erase t, successful_tasks := p.successful_tasks + 1 }).update_load).update_metrics mem := by
          simp only [applyOp]
          unfold ProcessorQueue.execute_task
          rw [if_pos hm]
          rfl
        rw [heq]
        obtain ⟨e1, e2, e3, e4⟩ := hexec { p with tasks := p.tasks.erase t, successful_tasks := p.successful_tasks + 1 }
        rw [e1, e2, e3, e4]
        simp only []
        omega
    · have heq : applyOp p (QueueOp.resolve t s mem) = p := by
        simp only [applyOp]
        unfold ProcessorQueue.execute_task
        rw [if_neg hm]
      rw [heq]
      exact h

/-- The invariant holds along any run of queue operations. -/
theorem counter_inv_runOps : ∀ (ops : List QueueOp) (p : ProcessorQueue),
    p.successful_tasks + p.failed_tasks + p.tasks.length ≤ p.total_tasks_processed →
    (runOps p ops).successful_tasks + (runOps p ops).failed_tasks + (runOps p ops).tasks.length
      ≤ (runOps p ops).total_tasks_processed
  | [], _, h => h
  | op :: ops, p, h => counter_inv_runOps ops (applyOp p op) (counter_inv_step p op h)

/-- C10: along every sequence of admit/withdraw/resolve operations from a
fresh queue, `successful_tasks + failed_tasks ≤ total_tasks_processed`:
totals count admissions, success/failure counts resolutions of
still-pending tasks, and each admission can be resolved at most once. -/
theorem counter_inequality_invariant (pid : ℕ) (spc : List String) (cap : ℚ)
    (ops : List QueueOp) :
    (runOps (ProcessorQueue.init pid spc cap) ops).successful_tasks
      + (runOps (ProcessorQueue.init pid spc cap) ops).failed_tasks
      ≤ (runOps (ProcessorQueue.init pid spc cap) ops).total_tasks_processed := by
  have h := counter_inv_runOps ops (ProcessorQueue.init pid spc cap) (by simp [ProcessorQueue.init])
  omega

end LB
